import Mathlib

/-!
Verification of the feature-aggregation pipeline of the
`2020-winter-data-analysis` repository.

The development shallowly embeds the two preprocessing modules
(`kaggle-riiid/preprocessing/refinement.py`,
`kaggle-riiid/preprocessing/preprocessing.py` and
`uncomfortable/preprocessing/preprocessing.py`) over explicit lists of
typed rows.  Pandas data frames become lists of row structures (plus an
explicit column-name list where a property is about the column set),
numeric values become rationals, nullable values become `Option`,
pandas float division becomes an explicit NaN/inf-propagating arithmetic,
and Python's globally seeded Mersenne-Twister generator becomes an
abstract deterministic stream `gen : Nat -> Nat` threaded through the
computation by an explicit step counter.
-/

namespace Spec2Proof

/-! ## Generic Python / pandas helpers -/

/-- Helper of `dropDuplicates`: drop the elements already seen. -/
def dropDupsAux {α : Type} [DecidableEq α] : List α → List α → List α
  | _, [] => []
  | seen, x :: xs =>
      if x ∈ seen then dropDupsAux seen xs
      else x :: dropDupsAux (x :: seen) xs

/-- `pandas.DataFrame.drop_duplicates`: keep the first occurrence of each
value, preserving order. -/
def dropDuplicates {α : Type} [DecidableEq α] (l : List α) : List α :=
  dropDupsAux [] l

/-- Assignment `df[c] = ...` on a frame's column list: appends the column
name if it is not already present, otherwise the column set is unchanged. -/
def assignCol (cols : List String) (c : String) : List String :=
  if c ∈ cols then cols else cols ++ [c]

/-- Python slice `l[i:]`, including the negative-index convention. -/
def pySliceFrom {α : Type} (l : List α) (i : Int) : List α :=
  if 0 ≤ i then l.drop i.toNat else l.drop (l.length - (-i).toNat)

/-- A pandas float value: a rational, or one of the non-finite markers
that pandas/numpy division produces instead of raising. -/
inductive PdNum where
  | nan : PdNum
  | inf : PdNum
  | ninf : PdNum
  | val : ℚ → PdNum
deriving DecidableEq, Repr

/-- pandas/numpy float division: `0/0` is NaN, `x/0` is a signed infinity,
NaN propagates; no exception is ever raised. -/
def pd_div : PdNum → PdNum → PdNum
  | PdNum.val a, PdNum.val b =>
      if b = 0 then
        if a = 0 then PdNum.nan else if 0 < a then PdNum.inf else PdNum.ninf
      else PdNum.val (a / b)
  | _, _ => PdNum.nan

/-- pandas/numpy float multiplication, restricted to the shapes the
pipeline uses (`x * 100`): NaN propagates, infinities keep their sign
against a positive finite factor. -/
def pd_mul : PdNum → PdNum → PdNum
  | PdNum.val a, PdNum.val b => PdNum.val (a * b)
  | PdNum.nan, _ => PdNum.nan
  | _, PdNum.nan => PdNum.nan
  | PdNum.inf, PdNum.val b =>
      if b = 0 then PdNum.nan else if 0 < b then PdNum.inf else PdNum.ninf
  | PdNum.val a, PdNum.inf =>
      if a = 0 then PdNum.nan else if 0 < a then PdNum.inf else PdNum.ninf
  | PdNum.ninf, PdNum.val b =>
      if b = 0 then PdNum.nan else if 0 < b then PdNum.ninf else PdNum.inf
  | PdNum.val a, PdNum.ninf =>
      if a = 0 then PdNum.nan else if 0 < a then PdNum.ninf else PdNum.inf
  | PdNum.inf, PdNum.inf => PdNum.inf
  | PdNum.inf, PdNum.ninf => PdNum.ninf
  | PdNum.ninf, PdNum.inf => PdNum.ninf
  | PdNum.ninf, PdNum.ninf => PdNum.inf

/-- A non-finite marker (NaN or a signed infinity): the "undefined"
numeric degeneracy markers that propagate instead of raising. -/
def PdNum.isUndefined : PdNum → Bool
  | PdNum.val _ => false
  | _ => true

/-! ## `kaggle-riiid/preprocessing/refinement.py` -/

/-- One row of the riiid interaction log, restricted to the columns the
refinement module reads.  `row_id` is the strictly increasing global
ingestion key. -/
structure LogRow where
  row_id : Nat
  user_id : Nat
  task_container_id : Nat
  content_type_id : Nat
  prior_question_elapsed_time : Option ℚ
  prior_question_had_explanation : Option ℚ
deriving DecidableEq, Repr

/-- Line 50: `groupby(['user_id', 'task_container_id'])['row_id'].transform('count')`
evaluated at one row: the number of rows of the frame sharing the row's
`(user_id, task_container_id)` pair. -/
def question_count (df : List LogRow) (r : LogRow) : Nat :=
  df.countP (fun x =>
    decide (x.user_id = r.user_id ∧ x.task_container_id = r.task_container_id))

/-- Line 51: keep the single-question containers of question events:
`(question_count == 1) & (content_type_id == 0)`. -/
def eligibleRows (df : List LogRow) : List LogRow :=
  df.filter (fun r => decide (question_count df r = 1 ∧ r.content_type_id = 0))

/-- The group keys of `groupby(['user_id'])` over the filtered, sorted
frame: the distinct user ids, in increasing order (pandas sorts the
group keys). -/
def usersOf (df : List LogRow) : List Nat :=
  List.insertionSort (· ≤ ·) ((eligibleRows df).map (fun r => r.user_id)).dedup

/-- Lines 52-55: the `task_container_id` tuple aggregated for one user.
The frame is sorted by `(user_id, task_container_id)` before grouping, so
within a user the tuple is the increasing list of its eligible container
ids. -/
def userTasks (df : List LogRow) (u : Nat) : List Nat :=
  List.insertionSort (· ≤ ·)
    (((eligibleRows df).filter (fun r => decide (r.user_id = u))).map
      (fun r => r.task_container_id))

/-- Lines 45-48, `_get_cutoff_position`, with `random.choice` modelled by
one read of the seeded deterministic stream `gen` at the current step.
Returns the chosen cutoff together with the stream position after the
call (`task_tuple[-1]` performs no random draw). -/
def get_cutoff_position (gen : Nat → Nat) (lower_bound : Nat)
    (task_tuple : List Nat) (step : Nat) : Nat × Nat :=
  if lower_bound ≤ task_tuple.length then
    let s := pySliceFrom task_tuple ((lower_bound : Int) - 1)
    (s.getD (gen step % s.length) 0, step + 1)
  else
    (task_tuple.getLastD 0, step)

/-- The per-user cutoff draws, performed in group-key order while
threading the random stream position. -/
def cutoffFold (gen : Nat → Nat) (lower_bound : Nat) :
    List (Nat × List Nat) → Nat → List (Nat × Nat)
  | [], _ => []
  | (u, t) :: rest, step =>
      let c := get_cutoff_position gen lower_bound t step
      (u, c.1) :: cutoffFold gen lower_bound rest c.2

/-- Lines 29-60, `derive_random_cutoff_data`: one `(user_id,
cutoff_position)` record per user owning at least one eligible event,
in increasing user order.  The `.apply` over the grouped frame walks the
users in index order, consuming the global random stream. -/
def derive_random_cutoff_data (gen : Nat → Nat) (lower_bound : Nat)
    (df : List LogRow) : List (Nat × Nat) :=
  cutoffFold gen lower_bound
    ((usersOf df).map (fun u => (u, userTasks df u))) 0

/-- The intermediate record of `shift_question_info`: one row per
distinct `(user_id, task_container_id, prior columns)` combination. -/
structure TaskRec where
  user_id : Nat
  task_container_id : Nat
  prior_question_elapsed_time : Option ℚ
  prior_question_had_explanation : Option ℚ
deriving DecidableEq, Repr

/-- The first later element of the list belonging to the same user:
`groupby('user_id').shift(-1)` reads its columns from this row. -/
def nextSameUser (u : Nat) : List TaskRec → Option TaskRec
  | [] => none
  | x :: xs => if x.user_id = u then some x else nextSameUser u xs

/-- `groupby('user_id')[prior_columns].shift(-1)`: each row receives the
prior columns of the next row of the same user (NaN when there is none;
a null prior value also stays null, hence the `Option.bind`). -/
def shiftNext : List TaskRec → List (TaskRec × Option ℚ × Option ℚ)
  | [] => []
  | x :: xs =>
      (x, (nextSameUser x.user_id xs).bind (fun n => n.prior_question_elapsed_time),
          (nextSameUser x.user_id xs).bind (fun n => n.prior_question_had_explanation))
        :: shiftNext xs

/-- Lines 62-82, `shift_question_info`: restrict to question rows,
deduplicate the `(user, container, priors)` records, shift the prior
columns back by one container within each user, and left-merge the two
new columns (`question_elapsed_time`, `question_had_explanation`) onto
the full log on `(user_id, task_container_id)`. -/
def shift_question_info (df : List LogRow) :
    List (LogRow × Option ℚ × Option ℚ) :=
  let question_data := df.filter (fun r => decide (r.content_type_id = 0))
  let task_data := dropDuplicates (question_data.map (fun r =>
    TaskRec.mk r.user_id r.task_container_id
      r.prior_question_elapsed_time r.prior_question_had_explanation))
  let shifted := shiftNext task_data
  df.flatMap (fun r =>
    let ms := shifted.filter (fun q =>
      decide (q.1.user_id = r.user_id ∧ q.1.task_container_id = r.task_container_id))
    if ms.isEmpty then [(r, none, none)]
    else ms.map (fun q => (r, q.2)))

/-- `pd.merge(data_frame, log_count_data, on = 'user_id')`: inner join of
the log with the one-row-per-user cutoff table; each log row of a user
holding a cutoff record is paired with that user's cutoff. -/
def joinCutoff (df : List LogRow) (cut : List (Nat × Nat)) :
    List (LogRow × Nat) :=
  df.filterMap (fun r => (cut.lookup r.user_id).map (fun c => (r, c)))

/-- Lines 4-27, `refine_log_data`.  Line 19 binds the result of
`shift_question_info` to `log_data`, but line 22 rebinds `log_data` to a
fresh merge of the *raw* input with the cutoff table, so the shifted
frame is dead.  The returned pair is (history partition, held-out
partition). -/
def refine_log_data (gen : Nat → Nat) (lower_bound : Nat)
    (df : List LogRow) : List (LogRow × Nat) × List (LogRow × Nat) :=
  let log_data := shift_question_info df
  let log_count_data := derive_random_cutoff_data gen lower_bound df
  let log_data := joinCutoff df log_count_data
  (log_data.filter (fun rc => decide (rc.1.task_container_id < rc.2)),
   log_data.filter (fun rc => decide (rc.1.task_container_id = rc.2)))

/-- `refine_log_data` with the dead line-19 call to
`shift_question_info` deleted. -/
def refine_log_data_no_shift (gen : Nat → Nat) (lower_bound : Nat)
    (df : List LogRow) : List (LogRow × Nat) × List (LogRow × Nat) :=
  let log_count_data := derive_random_cutoff_data gen lower_bound df
  let log_data := joinCutoff df log_count_data
  (log_data.filter (fun rc => decide (rc.1.task_container_id < rc.2)),
   log_data.filter (fun rc => decide (rc.1.task_container_id = rc.2)))

/-- The column set of the frames returned by `refine_log_data`: the
input columns, plus `question_count` (added in place to the input at
line 50), plus the merged-in `cutoff_position`. -/
def refine_log_data_columns (input_cols : List String) : List String :=
  assignCol input_cols "question_count" ++ [ "cutoff_position" ]

/-- A data frame together with its column list, for stating what a stage
does to the caller-supplied object it was handed. -/
structure PLogFrame where
  cols : List String
  rows : List LogRow
deriving DecidableEq, Repr

/-- The effect of `derive_random_cutoff_data` on the *caller's* frame:
line 50 (`log_data['question_count'] = ...transform('count')`) assigns a
new column in place before the local name is rebound, so the caller's
object gains a `question_count` column; its rows are not removed. -/
def derive_random_cutoff_data_mutation (f : PLogFrame) : PLogFrame :=
  PLogFrame.mk (assignCol f.cols "question_count") f.rows

/-! ## `uncomfortable/preprocessing/preprocessing.py` -/

/-- One row of the product error-telemetry log, restricted to the
columns `derive_err_related_data` touches.  `time` holds the raw
`YYYYMMDDHHMMSS` numeric encoding; `date`, absent (`none`) on input,
is the calendar-day column derived at line 43. -/
structure ErrRow where
  user_id : Nat
  time : Nat
  errtype : Nat
  errcode : Nat
  date : Option Nat
deriving DecidableEq, Repr

/-- An error-telemetry frame with its column list. -/
structure ErrFrame where
  cols : List String
  rows : List ErrRow
deriving DecidableEq, Repr

/-- `datetime.strptime(str(x), '%Y%m%d%H%M%S')`: a parsed datetime is
modelled by the same `YYYYMMDDHHMMSS` number; the parse is an injective
re-representation of the value. -/
def strptime14 (n : Nat) : Nat := n

/-- `astype('datetime64[D]')` on the `YYYYMMDDHHMMSS` encoding:
truncation to the calendar date `YYYYMMDD`. -/
def dateOf (n : Nat) : Nat := n / 1000000

/-- The effect of `derive_err_related_data` (lines 42-43) on the
*caller's* frame: `error_data['time'] = ...` overwrites the time column
with its parsed form in place and `error_data['date'] = ...` assigns a
new calendar-day column in place, before any aggregation happens. -/
def derive_err_related_data_mutation (f : ErrFrame) : ErrFrame :=
  ErrFrame.mk (assignCol (assignCol f.cols "time") "date")
    (f.rows.map (fun r =>
      { r with time := strptime14 r.time, date := some (dateOf (strptime14 r.time)) }))

/-- Line 184: `(mean_quality_data[QUALITY_COLUMN] ** 2).sum(axis = 1) ** 1/2`
evaluated on one row's quality values.  Python parses the trailing
`** 1/2` as `(... ** 1) / 2`.  (`QUALITY_COLUMN`, the list of quality
column names, lives in the repository's `constant.py`; the row is
modelled as the list of its quality values, which is all this
expression reads.) -/
def quality_L2_norm (qs : List ℚ) : ℚ :=
  ((qs.map (fun x => x ^ 2)).sum) ^ 1 / 2

/-- Line 192: the same expression over a row of the per-group variance
table. -/
def stability_L2_norm (vs : List ℚ) : ℚ :=
  ((vs.map (fun x => x ^ 2)).sum) ^ 1 / 2

/-! ## `kaggle-riiid/preprocessing/preprocessing.py` -/

/-- One row of a long `(user_id, part, value)` table, the shape handed
to the pivoting helpers. -/
structure PivotRow where
  user_id : Nat
  part : Nat
  value : ℚ
deriving DecidableEq, Repr

/-- One cell of `pivot_table(values, index = user, columns = part,
aggfunc)` *before* `fillna`: the aggregate of the values of the rows
with this `(user, part)` key, or `none` (NaN) when the combination is
absent. -/
def pivot_table_cell (rows : List PivotRow) (aggfunc : List ℚ → ℚ)
    (u p : Nat) : Option ℚ :=
  let vs := (rows.filter (fun r => decide (r.user_id = u ∧ r.part = p))).map
    (fun r => r.value)
  if vs.isEmpty then none else some (aggfunc vs)

/-- The column key set of a pivot: the distinct `part` values observed
anywhere in the input. -/
def pivot_columns (rows : List PivotRow) : List Nat :=
  dropDuplicates (rows.map (fun r => r.part))

/-- The index key set of a pivot: the distinct `user_id` values observed
anywhere in the input. -/
def pivot_users (rows : List PivotRow) : List Nat :=
  dropDuplicates (rows.map (fun r => r.user_id))

/-- `.fillna(0)` on one cell. -/
def fillna0 (v : Option ℚ) : ℚ := v.getD 0

/-- Lines 80-92, `_derive_pivot_data` (and the uncomfortable module's
`_derive_pivot_table`, lines 280-289): `pivot_table(...).fillna(0)`,
read at one `(user, part)` cell. -/
def derive_pivot_data_cell (rows : List PivotRow) (aggfunc : List ℚ → ℚ)
    (u p : Nat) : ℚ :=
  fillna0 (pivot_table_cell rows aggfunc u p)

/-- The `count` aggregation function of a pivot. -/
def aggCount (vs : List ℚ) : ℚ := (vs.length : ℚ)

/-- Lines 201-205 of `derive_user_info`: `answer_data.pivot(values = col,
index = 'user_id', columns = 'part')`, read at one cell.  `DataFrame.pivot`
performs no aggregation (the long table has one row per `(user, part)`)
and — unlike `_derive_pivot_data` — applies **no** `fillna`, so an absent
combination stays `none` (NaN). -/
def derive_user_info_pivot_cell (rows : List PivotRow) (u p : Nat) :
    Option ℚ :=
  (rows.find? (fun r => decide (r.user_id = u ∧ r.part = p))).map
    (fun r => r.value)

/-- One question event of a per-user or per-`(user, part)` group, with
the value columns aggregated by `_derive_question_cross_sectional_data`.
Nullable observations are `Option`. -/
structure QRow where
  row_id : Nat
  timestamp : ℚ
  answered_correctly : Option ℚ
  question_had_explanation : Option ℚ
  question_elapsed_time : Option ℚ
  tag_list : List String
deriving DecidableEq, Repr

/-- The ordering used at line 141 (`sort_values(['row_id'])`). -/
def rowIdLe (a b : QRow) : Prop := a.row_id ≤ b.row_id

instance : DecidableRel rowIdLe := fun a b => Nat.decLe a.row_id b.row_id

instance : IsTotal QRow rowIdLe := ⟨fun a b => Nat.le_total a.row_id b.row_id⟩

instance : IsTrans QRow rowIdLe := ⟨fun _ _ _ h h' => Nat.le_trans h h'⟩

/-- The group's rows in `row_id` order. -/
def sortByRowId (g : List QRow) : List QRow := List.insertionSort rowIdLe g

/-- `Series.count` under a grouped frame: the number of non-null values
of the column in the group. -/
def agg_count (f : QRow → Option ℚ) (g : List QRow) : ℚ :=
  ((g.filterMap f).length : ℚ)

/-- `Series.sum` (skipna): sum of the non-null values, `0` when all are
null. -/
def agg_sum (f : QRow → Option ℚ) (g : List QRow) : ℚ :=
  (g.filterMap f).sum

/-- `Series.mean` (skipna): NaN on an all-null column. -/
def agg_mean (f : QRow → Option ℚ) (g : List QRow) : PdNum :=
  if agg_count f g = 0 then PdNum.nan
  else PdNum.val (agg_sum f g / agg_count f g)

/-- `Series.max` over the (never-null) timestamp column; NaN on an empty
group. -/
def agg_max_timestamp (g : List QRow) : PdNum :=
  match (g.map (fun r => r.timestamp)).max? with
  | none => PdNum.nan
  | some m => PdNum.val m

/-- `groupby(...).last()` on a frame previously sorted by `row_id`
(lines 139-141, 168): the last *non-null* value of the column in
`row_id` order. -/
def agg_last (f : QRow → Option ℚ) (g : List QRow) : Option ℚ :=
  ((sortByRowId g).filterMap f).getLast?

/-- `Series.sum` on the list-valued tag column: Python list
concatenation in `row_id` order. -/
def agg_tag_sum (g : List QRow) : List String :=
  ((sortByRowId g).map (fun r => r.tag_list)).flatten

/-- `user_gp['answered_correctly'].count()` for one group. -/
def answered_count (g : List QRow) : ℚ :=
  agg_count (fun r => r.answered_correctly) g

/-- `user_gp['answered_correctly'].sum()` for one group. -/
def correct_count (g : List QRow) : ℚ :=
  agg_sum (fun r => r.answered_correctly) g

/-- `user_gp['question_had_explanation'].sum()` for one group. -/
def seen_explanation_count (g : List QRow) : ℚ :=
  agg_sum (fun r => r.question_had_explanation) g

/-- `user_gp['answered_correctly'].last()` for one group. -/
def recently_correct_answer (g : List QRow) : Option ℚ :=
  agg_last (fun r => r.answered_correctly) g

/-- The row of the cross-sectional table produced for one group by
`_derive_question_cross_sectional_data` (lines 153-191). -/
structure QuestionStats where
  answered_count : ℚ
  correct_count : ℚ
  seen_explanation_count : ℚ
  answer_elapsed_time_mean : PdNum
  answer_elapsed_time_sum : ℚ
  recently_solve_question : PdNum
  recently_correct_answer : Option ℚ
  solved_question_tag_list : List String
  correct_rate : PdNum
  seen_explanation_rate : PdNum
deriving DecidableEq, Repr

/-- Lines 153-191, `_derive_question_cross_sectional_data`, evaluated on
one group.  Lines 183-184 derive the two rate columns by elementwise
pandas division and multiplication, which propagate NaN/inf instead of
raising. -/
def derive_question_cross_sectional_data (g : List QRow) : QuestionStats :=
  { answered_count := answered_count g
    correct_count := correct_count g
    seen_explanation_count := seen_explanation_count g
    answer_elapsed_time_mean := agg_mean (fun r => r.question_elapsed_time) g
    answer_elapsed_time_sum := agg_sum (fun r => r.question_elapsed_time) g
    recently_solve_question := agg_max_timestamp g
    recently_correct_answer := recently_correct_answer g
    solved_question_tag_list := agg_tag_sum g
    correct_rate :=
      pd_mul (pd_div (PdNum.val (correct_count g)) (PdNum.val (answered_count g)))
        (PdNum.val 100)
    seen_explanation_rate :=
      pd_mul (pd_div (PdNum.val (seen_explanation_count g)) (PdNum.val (answered_count g)))
        (PdNum.val 100) }

/-- One row of the full riiid interaction log as read by
`preprocessing.py` (the refinement module's view plus the value
columns). -/
structure RiiidLogRow where
  row_id : Nat
  user_id : Nat
  content_id : Nat
  content_type_id : Nat
  task_container_id : Nat
  timestamp : ℚ
  answered_correctly : Option ℚ
  question_had_explanation : Option ℚ
  question_elapsed_time : Option ℚ
deriving DecidableEq, Repr

/-- One row of `question.csv`. -/
structure QuestionMeta where
  question_id : Nat
  part : Nat
  tags : String
deriving DecidableEq, Repr

/-- Line 137: `str(x).split(' ')`. -/
def splitTags (s : String) : List String := s.splitOn " "

/-- Lines 135-137: the question events joined with their metadata
(`content_id = question_id`), tagged with the user and part keys the two
`groupby`s use and carrying the aggregated value columns. -/
def question_rows (log : List RiiidLogRow) (qmeta : List QuestionMeta) :
    List (Nat × Nat × QRow) :=
  (log.filter (fun r => decide (r.content_type_id = 0))).filterMap (fun r =>
    (qmeta.find? (fun m => decide (m.question_id = r.content_id))).map (fun m =>
      (r.user_id, m.part,
        QRow.mk r.row_id r.timestamp r.answered_correctly
          r.question_had_explanation r.question_elapsed_time
          (splitTags m.tags))))

/-- The `groupby(['user_id', 'part'])` group of one `(user, part)` key. -/
def userPartGroup (log : List RiiidLogRow) (qmeta : List QuestionMeta)
    (u p : Nat) : List QRow :=
  ((question_rows log qmeta).filter (fun x =>
    decide (x.1 = u ∧ x.2.1 = p))).map (fun x => x.2.2)

/-- The `groupby(['user_id'])` group of one user. -/
def userGroup (log : List RiiidLogRow) (qmeta : List QuestionMeta)
    (u : Nat) : List QRow :=
  ((question_rows log qmeta).filter (fun x => decide (x.1 = u))).map
    (fun x => x.2.2)

/-- One row of the long table returned by `derive_question_info`: the
per-`(user, part)` statistics merged (on `user_id`) with the user's
totals. -/
structure AnswerRow where
  user_id : Nat
  part : Nat
  stats : QuestionStats
  total : QuestionStats
deriving DecidableEq, Repr

/-- Lines 94-151, `derive_question_info`: one row per observed
`(user, part)` pair, carrying the per-part cross-sectional statistics
and, merged on `user_id`, the user-level totals. -/
def derive_question_info (log : List RiiidLogRow)
    (qmeta : List QuestionMeta) : List AnswerRow :=
  (dropDuplicates ((question_rows log qmeta).map (fun x => (x.1, x.2.1)))).map
    (fun up =>
      AnswerRow.mk up.1 up.2
        (derive_question_cross_sectional_data (userPartGroup log qmeta up.1 up.2))
        (derive_question_cross_sectional_data (userGroup log qmeta up.1)))

/-- One row of `lectures.csv`. -/
structure LectureMeta where
  lecture_id : Nat
  tag : Nat
  part : Nat
  type_of : String
deriving DecidableEq, Repr

/-- Lines 34-35: the lecture-view events joined with their metadata,
shaped as the long `(user, part, value)` table the part-wise pivots
consume (value `1` per viewed lecture, counted by the pivot). -/
def lecture_viewed_rows (log : List RiiidLogRow) (meta : List LectureMeta) :
    List PivotRow :=
  (log.filter (fun r => decide (r.content_type_id = 1))).filterMap (fun r =>
    (meta.find? (fun m => decide (m.lecture_id = r.content_id))).map (fun m =>
      PivotRow.mk r.user_id m.part 1))

/-- Lines 26-55, `derive_lecture_info`, modelled at the granularity of
its part-wise lecture-count pivot (the `part_df` of
`_derive_part_data`): one wide row per user, one zero-filled count cell
per observed part, built through `_derive_pivot_data`.  The type/tag/
timestamp pivots follow the identical `_derive_pivot_data` scheme and no
property below depends on them. -/
def derive_lecture_info (log : List RiiidLogRow) (meta : List LectureMeta) :
    List (Nat × List (Nat × ℚ)) :=
  let rws := lecture_viewed_rows log meta
  (pivot_users rws).map (fun u =>
    (u, (pivot_columns rws).map (fun p =>
      (p, derive_pivot_data_cell rws aggCount u p))))

/-- One row of the objective (label) table handed to `preprocessing`. -/
structure ObjRow where
  user_id : Nat
  content_id : Nat
deriving DecidableEq, Repr

/-- The long `(user, part, value)` view of one statistic column of the
`derive_question_info` output, as fed to the line-203 pivot. -/
def answer_value_rows (answer_data : List AnswerRow)
    (col : QuestionStats → ℚ) : List PivotRow :=
  answer_data.map (fun a => PivotRow.mk a.user_id a.part (col a.stats))

/-- Lines 193-261, `derive_user_info`, modelled at the granularity of
its per-part pivot stage (lines 196-209): every non-total statistic
column of `answer_data` is pivoted by `DataFrame.pivot` — shown here for
the `answered_count` column, all columns being pivoted identically —
into one wide row per user with one *unfilled* `Option` cell per part.
The subsequent metadata joins and the column-drop list do not touch
these cells and no property below depends on them. -/
def derive_user_info (lecture_data : List (Nat × List (Nat × ℚ)))
    (answer_data : List AnswerRow) (objection_data : List ObjRow)
    (question_meta_data : List QuestionMeta)
    (question_overall_data : List (Nat × ℚ)) :
    List (Nat × List (Nat × Option ℚ)) :=
  let rws := answer_value_rows answer_data (fun s => s.answered_count)
  (pivot_users rws).map (fun u =>
    (u, (pivot_columns rws).map (fun p =>
      (p, derive_user_info_pivot_cell rws u p))))

/-- A Python runtime error. -/
inductive PyError where
  | nameError : String → PyError
deriving DecidableEq, Repr

/-- Lines 4-24, `preprocessing`.  Line 20 binds `lecture_data`, line 21
binds the question table to `question_data`, and line 22 then passes
`answer_data` — a name no statement ever assigned — to
`derive_user_info`.  Python evaluates the arguments before the call, so
the name lookup raises `NameError` and the call is never entered. -/
def preprocessing (log_data : List RiiidLogRow)
    (objection_data : List ObjRow)
    (lecture_meta_data : List LectureMeta)
    (question_meta_data : List QuestionMeta)
    (question_overall_data : List (Nat × ℚ)) :
    Except PyError (List (Nat × List (Nat × Option ℚ))) :=
  let lecture_data := derive_lecture_info log_data lecture_meta_data
  let question_data := derive_question_info log_data question_meta_data
  (Except.error (PyError.nameError "answer_data")).bind (fun answer_data =>
    Except.ok (derive_user_info lecture_data answer_data objection_data
      question_meta_data question_overall_data))

/-! ## Helper lemmas -/

lemma getD_mod_mem {s : List Nat} (hs : s ≠ []) (i : Nat) :
    s.getD (i % s.length) 0 ∈ s := by
  have hlen : 0 < s.length := List.length_pos.mpr hs
  have hlt : i % s.length < s.length := Nat.mod_lt _ hlen
  rw [List.getD_eq_getElem?_getD, List.getElem?_eq_getElem hlt]
  exact List.getElem_mem hlt

lemma pd_rate_undefined (a : ℚ) :
    (pd_mul (pd_div (PdNum.val a) (PdNum.val 0)) (PdNum.val 100)).isUndefined
      = true := by
  rcases lt_trichotomy a 0 with h | h | h
  · have h0 : ¬(a = 0) := by exact ne_of_lt h
    have h1 : ¬(0 < a) := by exact not_lt_of_lt h
    simp [pd_div, pd_mul, h0, h1, PdNum.isUndefined]
  · simp [pd_div, pd_mul, h, PdNum.isUndefined]
  · have h0 : ¬(a = 0) := by exact ne_of_gt h
    simp [pd_div, pd_mul, h0, h, PdNum.isUndefined]

lemma mem_dropDupsAux {α : Type} [DecidableEq α] (a : α) :
    ∀ (l seen : List α), a ∈ dropDupsAux seen l ↔ a ∈ l ∧ a ∉ seen
  | [], seen => by simp [dropDupsAux]
  | x :: xs, seen => by
      rw [dropDupsAux]
      by_cases hx : x ∈ seen
      · rw [if_pos hx, mem_dropDupsAux a xs seen]
        constructor
        · rintro ⟨h1, h2⟩
          exact ⟨List.mem_cons_of_mem x h1, h2⟩
        · rintro ⟨h1, h2⟩
          rcases List.mem_cons.mp h1 with rfl | h1
          · exact absurd hx h2
          · exact ⟨h1, h2⟩
      · rw [if_neg hx]
        by_cases hax : a = x
        · subst hax
          simp [hx]
        · rw [List.mem_cons, or_iff_right hax, mem_dropDupsAux a xs (x :: seen)]
          simp [hax]

lemma mem_dropDuplicates {α : Type} [DecidableEq α] (a : α) (l : List α) :
    a ∈ dropDuplicates l ↔ a ∈ l := by
  rw [dropDuplicates, mem_dropDupsAux]
  simp

lemma mem_joinCutoff {df : List LogRow} {cut : List (Nat × Nat)}
    {r : LogRow} {c : Nat} :
    (r, c) ∈ joinCutoff df cut ↔ r ∈ df ∧ cut.lookup r.user_id = some c := by
  rw [joinCutoff, List.mem_filterMap]
  constructor
  · rintro ⟨a, ha, hmap⟩
    rw [Option.map_eq_some'] at hmap
    rcases hmap with ⟨c', hc', heq⟩
    rcases Prod.mk.injEq .. ▸ heq with ⟨rfl, rfl⟩
    exact ⟨ha, hc'⟩
  · rintro ⟨hr, hc⟩
    exact ⟨r, hr, by rw [hc]; rfl⟩

lemma question_count_perm {df₁ df₂ : List LogRow} (h : df₁.Perm df₂)
    (r : LogRow) : question_count df₁ r = question_count df₂ r :=
  h.countP_eq _

lemma eligibleRows_perm {df₁ df₂ : List LogRow} (h : df₁.Perm df₂) :
    (eligibleRows df₁).Perm (eligibleRows df₂) := by
  rw [eligibleRows, eligibleRows]
  have h1 := h.filter (fun r =>
    decide (question_count df₁ r = 1 ∧ r.content_type_id = 0))
  have h2 : df₂.filter (fun r =>
        decide (question_count df₁ r = 1 ∧ r.content_type_id = 0))
      = df₂.filter (fun r =>
        decide (question_count df₂ r = 1 ∧ r.content_type_id = 0)) :=
    List.filter_congr (fun r _ => by rw [question_count_perm h r])
  rw [← h2]
  exact h1

lemma userTasks_perm_eq {df₁ df₂ : List LogRow} (h : df₁.Perm df₂)
    (u : Nat) : userTasks df₁ u = userTasks df₂ u := by
  rw [userTasks, userTasks]
  refine @List.eq_of_perm_of_sorted Nat (fun a b => a ≤ b) _ _ _ ?_ ?_ ?_
  · exact ((List.perm_insertionSort _ _).trans
      (((eligibleRows_perm h).filter _).map _)).trans
      (List.perm_insertionSort _ _).symm
  · exact List.sorted_insertionSort _ _
  · exact List.sorted_insertionSort _ _

lemma usersOf_perm_eq {df₁ df₂ : List LogRow} (h : df₁.Perm df₂) :
    usersOf df₁ = usersOf df₂ := by
  rw [usersOf, usersOf]
  refine @List.eq_of_perm_of_sorted Nat (fun a b => a ≤ b) _ _ _ ?_ ?_ ?_
  · exact ((List.perm_insertionSort _ _).trans
      (((eligibleRows_perm h).map _).dedup)).trans
      (List.perm_insertionSort _ _).symm
  · exact List.sorted_insertionSort _ _
  · exact List.sorted_insertionSort _ _

lemma sorted_rowIdLe_getLast :
    ∀ {l : List QRow}, l.Sorted rowIdLe → (l.map QRow.row_id).Nodup →
      ∀ {r : QRow}, r ∈ l → (∀ x ∈ l, x.row_id ≤ r.row_id) →
      l.getLast? = some r := by
  intro l
  induction l with
  | nil =>
    intro _ _ r hr
    exact absurd hr (List.not_mem_nil r)
  | cons x xs ih =>
    intro hs hnd r hr hmax
    cases xs with
    | nil =>
      obtain rfl := List.mem_singleton.mp hr
      rfl
    | cons y ys =>
      rw [List.getLast?_cons_cons]
      rw [List.map_cons, List.nodup_cons] at hnd
      have hrmem : r ∈ y :: ys := by
        rcases List.mem_cons.mp hr with rfl | hmem
        · exfalso
          have hxy : r.row_id ≤ y.row_id :=
            (List.sorted_cons.mp hs).1 y (by simp)
          have hyx : y.row_id ≤ r.row_id := hmax y (by simp)
          exact hnd.1 (List.mem_map.mpr
            ⟨y, by simp, le_antisymm hyx hxy⟩)
        · exact hmem
      refine ih hs.of_cons hnd.2 hrmem ?_
      intro z hz
      exact hmax z (List.mem_cons_of_mem x hz)

lemma getLast?_filterMap {f : QRow → Option ℚ} :
    ∀ {l : List QRow} {r : QRow}, l.getLast? = some r → (f r).isSome →
      (l.filterMap f).getLast? = f r := by
  intro l
  induction l with
  | nil =>
    intro r hlast
    simp at hlast
  | cons x xs ih =>
    intro r hlast hsome
    cases xs with
    | nil =>
      have hxr : x = r := by simpa using hlast
      subst hxr
      rw [List.filterMap_cons]
      cases hf : f x with
      | none =>
        rw [hf] at hsome
        simp at hsome
      | some v =>
        simp [hf]
    | cons y ys =>
      rw [List.getLast?_cons_cons] at hlast
      have htail := ih hlast hsome
      rw [List.filterMap_cons]
      cases hf : f x with
      | none =>
        dsimp only
        exact htail
      | some v =>
        cases ht : (y :: ys).filterMap f with
        | nil =>
          exfalso
          rw [ht] at htail
          simp only [List.getLast?_nil] at htail
          rw [← htail] at hsome
          simp at hsome
        | cons a as =>
          rw [ht] at htail
          dsimp only
          rw [List.getLast?_cons_cons]
          exact htail

lemma sorted_perm_rowId_nodup_eq :
    ∀ {l₁ l₂ : List QRow}, l₁.Perm l₂ → l₁.Sorted rowIdLe →
      l₂.Sorted rowIdLe → (l₁.map QRow.row_id).Nodup → l₁ = l₂ := by
  intro l₁
  induction l₁ with
  | nil =>
    intro l₂ h _ _ _
    exact h.nil_eq
  | cons x xs ih =>
    intro l₂ h hs₁ hs₂ hnd
    cases l₂ with
    | nil =>
      exfalso
      simpa using h.length_eq
    | cons y ys =>
      by_cases hxy : x = y
      · subst hxy
        rw [ih h.cons_inv hs₁.of_cons hs₂.of_cons (by
          rw [List.map_cons] at hnd
          exact hnd.of_cons)]
      · exfalso
        have hx2 : x ∈ ys := by
          rcases List.mem_cons.mp (h.subset (List.mem_cons_self x xs))
            with h' | h'
          · exact absurd h' hxy
          · exact h'
        have hy1 : y ∈ xs := by
          rcases List.mem_cons.mp (h.symm.subset (List.mem_cons_self y ys))
            with h' | h'
          · exact absurd h'.symm hxy
          · exact h'
        have h1 : x.row_id ≤ y.row_id := (List.sorted_cons.mp hs₁).1 y hy1
        have h2 : y.row_id ≤ x.row_id := (List.sorted_cons.mp hs₂).1 x hx2
        simp only [List.map_cons, List.nodup_cons] at hnd
        exact hnd.1 (List.mem_map.mpr ⟨y, hy1, le_antisymm h2 h1⟩)

lemma sortByRowId_perm_eq {g g' : List QRow} (h : g'.Perm g)
    (hnd : (g.map QRow.row_id).Nodup) : sortByRowId g' = sortByRowId g := by
  rw [sortByRowId, sortByRowId]
  apply sorted_perm_rowId_nodup_eq
  · exact (List.perm_insertionSort rowIdLe g').trans
      (h.trans (List.perm_insertionSort rowIdLe g).symm)
  · exact List.sorted_insertionSort rowIdLe g'
  · exact List.sorted_insertionSort rowIdLe g
  · exact (((List.perm_insertionSort rowIdLe g').trans h).map
      QRow.row_id).nodup_iff.mpr hnd

/-! ## Claim theorems -/

/-- Claim C1: for a nonempty eligible-position tuple `t` and minimum
history `m ≥ 1`, `_get_cutoff_position` returns the last position when
the subject has fewer than `m` eligible events; returns an element of
positions `m .. count` (the slice dropping the first `m - 1`) when it
has at least `m`; and deterministically returns position `m` when it has
exactly `m`. -/
theorem c1_cutoff_selection (gen : Nat → Nat) (step m : Nat) (t : List Nat)
    (ht : t ≠ []) (hm : 1 ≤ m) :
    (t.length < m → (get_cutoff_position gen m t step).1 = t.getLast ht)
  ∧ (m ≤ t.length → (get_cutoff_position gen m t step).1 ∈ t.drop (m - 1))
  ∧ (t.length = m → (get_cutoff_position gen m t step).1 = t.getD (m - 1) 0) := by
  have hslice : pySliceFrom t ((m : Int) - 1) = t.drop (m - 1) := by
    have h0 : (0 : Int) ≤ (m : Int) - 1 := by omega
    rw [pySliceFrom, if_pos h0]
    congr 1
    omega
  refine ⟨?_, ?_, ?_⟩
  · intro hlt
    rw [get_cutoff_position, if_neg (by omega)]
    simp [List.getLastD_eq_getLast?, List.getLast?_eq_getLast t ht]
  · intro hle
    rw [get_cutoff_position, if_pos hle]
    simp only [hslice]
    have hds : t.drop (m - 1) ≠ [] := by
      intro hnil
      have := List.drop_eq_nil_iff.mp hnil
      omega
    exact getD_mod_mem hds _
  · intro heq
    rw [get_cutoff_position, if_pos (le_of_eq heq.symm)]
    simp only [hslice]
    have hlen : (t.drop (m - 1)).length = 1 := by
      rw [List.length_drop]
      omega
    rw [hlen, Nat.mod_one, List.getD_eq_getElem?_getD,
      List.getD_eq_getElem?_getD, List.getElem?_drop, Nat.add_zero]

/-- Claim C1 witness: at `t = [4, 7, 9]`, `m = 2`, the cutoff is one of
the positions `7, 9` (indices `2 .. 3`, i.e. the drop-1 slice). -/
theorem c1_cutoff_selection_witness :
    (get_cutoff_position (fun _ => 1) 2 [ 4, 7, 9 ] 0).1 ∈
      List.drop 1 [ 4, 7, 9 ] :=
  (c1_cutoff_selection (fun _ => 1) 0 2 [ 4, 7, 9 ] (by decide)
    (by decide)).2.1 (by decide)

/-- Claim C6: on a group whose `answered_count` is zero (an all-null
answered column), the derived `correct_rate` is the NaN marker and the
derived `seen_explanation_rate` is a non-finite undefined marker; the
(total) derivation propagates the degeneracy instead of raising. -/
theorem c6_zero_denominator_rates (g : List QRow)
    (h : answered_count g = 0) :
    (derive_question_cross_sectional_data g).correct_rate = PdNum.nan
  ∧ ((derive_question_cross_sectional_data g).seen_explanation_rate).isUndefined
      = true := by
  have hc : correct_count g = 0 := by
    have hl : (g.filterMap (fun r => r.answered_correctly)).length = 0 := by
      have h' := h
      rw [answered_count, agg_count] at h'
      exact_mod_cast h'
    rw [correct_count, agg_sum, List.length_eq_zero.mp hl]
    rfl
  constructor
  · simp only [derive_question_cross_sectional_data, h, hc]
    simp [pd_div, pd_mul]
  · simp only [derive_question_cross_sectional_data, h]
    exact pd_rate_undefined _

/-- Claim C6 witness: a one-row group whose answered column is null. -/
theorem c6_zero_denominator_rates_witness :
    (derive_question_cross_sectional_data
        [ QRow.mk 0 0 none none none [] ]).correct_rate = PdNum.nan
  ∧ ((derive_question_cross_sectional_data
        [ QRow.mk 0 0 none none none [] ]).seen_explanation_rate).isUndefined
      = true :=
  c6_zero_denominator_rates [ QRow.mk 0 0 none none none [] ] (by decide)

/-- Claim C8: the quality and stability "L2 norms" of lines 184 and 192
evaluate, under exact arithmetic, to the sum of the squared column
values divided by 2 — the operator precedence `(x ** 2).sum() ** 1 / 2` —
and not to the square root of that sum (at the row `[3, 4]` the sum of
squares is `25`, the computed value is `25 / 2`, and its square is not
`25`). -/
theorem c8_l2_norm_precedence :
    (∀ qs : List ℚ, quality_L2_norm qs = (qs.map (fun x => x ^ 2)).sum / 2)
  ∧ (∀ vs : List ℚ, stability_L2_norm vs = (vs.map (fun x => x ^ 2)).sum / 2)
  ∧ quality_L2_norm [ 3, 4 ] = 25 / 2
  ∧ quality_L2_norm [ 3, 4 ] * quality_L2_norm [ 3, 4 ]
      ≠ (List.map (fun x => x ^ 2) [ (3 : ℚ), 4 ]).sum := by
  refine ⟨fun qs => by rw [quality_L2_norm, pow_one],
    fun vs => by rw [stability_L2_norm, pow_one], ?_, ?_⟩
  · norm_num [quality_L2_norm]
  · norm_num [quality_L2_norm]

/-- Claim C9: on every input, the top-level `preprocessing` entry point
evaluates the unbound name `answer_data` at line 22 (the question table
having been bound to `question_data`) and therefore raises `NameError`
before `derive_user_info` is entered; it never returns a feature
table. -/
theorem c9_preprocessing_name_error :
    ∀ (log_data : List RiiidLogRow) (objection_data : List ObjRow)
      (lecture_meta_data : List LectureMeta)
      (question_meta_data : List QuestionMeta)
      (question_overall_data : List (Nat × ℚ)),
      preprocessing log_data objection_data lecture_meta_data
          question_meta_data question_overall_data
        = Except.error (PyError.nameError "answer_data") :=
  fun _ _ _ _ _ => rfl

/-- Claim C2: a `(row, cutoff)` pair is in the history partition exactly
when the row is an input row, its user's cutoff record equals that
cutoff, and the row's container position is strictly below it; it is in
the held-out partition exactly when the container position equals the
cutoff; and a row strictly after its user's cutoff lands in neither
partition. -/
theorem c2_partitioning (gen : Nat → Nat) (lb : Nat) (df : List LogRow)
    (r : LogRow) (c : Nat) :
    ((r, c) ∈ (refine_log_data gen lb df).1 ↔
      r ∈ df ∧ (derive_random_cutoff_data gen lb df).lookup r.user_id = some c
        ∧ r.task_container_id < c)
  ∧ ((r, c) ∈ (refine_log_data gen lb df).2 ↔
      r ∈ df ∧ (derive_random_cutoff_data gen lb df).lookup r.user_id = some c
        ∧ r.task_container_id = c)
  ∧ ((derive_random_cutoff_data gen lb df).lookup r.user_id = some c →
      c < r.task_container_id →
      (r, c) ∉ (refine_log_data gen lb df).1
        ∧ (r, c) ∉ (refine_log_data gen lb df).2) := by
  have h1 : ∀ rc : LogRow × Nat, rc ∈ (refine_log_data gen lb df).1 ↔
      rc ∈ joinCutoff df (derive_random_cutoff_data gen lb df)
        ∧ rc.1.task_container_id < rc.2 := by
    intro rc
    simp [refine_log_data, List.mem_filter]
  have h2 : ∀ rc : LogRow × Nat, rc ∈ (refine_log_data gen lb df).2 ↔
      rc ∈ joinCutoff df (derive_random_cutoff_data gen lb df)
        ∧ rc.1.task_container_id = rc.2 := by
    intro rc
    simp [refine_log_data, List.mem_filter]
  refine ⟨?_, ?_, ?_⟩
  · rw [h1 (r, c), mem_joinCutoff, and_assoc]
  · rw [h2 (r, c), mem_joinCutoff, and_assoc]
  · intro _ hgt
    constructor
    · intro hmem
      rcases (h1 (r, c)).mp hmem with ⟨-, hlt⟩
      dsimp only at hlt
      omega
    · intro hmem
      rcases (h2 (r, c)).mp hmem with ⟨-, heq⟩
      dsimp only at heq
      omega

/-- Claim C2 witness: a two-event user whose cutoff draw is its first
container; the second event (container position above the cutoff) is in
neither returned partition. -/
theorem c2_partitioning_witness :
    (LogRow.mk 1 1 5 0 none none, 1) ∉
      (refine_log_data (fun _ => 0) 1
        [ LogRow.mk 0 1 1 0 none none, LogRow.mk 1 1 5 0 none none ]).1
  ∧ (LogRow.mk 1 1 5 0 none none, 1) ∉
      (refine_log_data (fun _ => 0) 1
        [ LogRow.mk 0 1 1 0 none none, LogRow.mk 1 1 5 0 none none ]).2 :=
  (c2_partitioning (fun _ => 0) 1
    [ LogRow.mk 0 1 1 0 none none, LogRow.mk 1 1 5 0 none none ]
    (LogRow.mk 1 1 5 0 none none) 1).2.2 (by decide) (by decide)

/-- Claim C3 (amended): for the `pivot_table(...).fillna(0)` pivots
(`_derive_pivot_data`, `_derive_pivot_table`), the column set is exactly
the category values observed anywhere in the input, and a subject's cell
for a category it has no event in is filled with `0`.  (The line-203
`DataFrame.pivot` of `derive_user_info` is *not* zero-filled; see the
counterexample.) -/
theorem c3_pivot_zero_fill_amended (rows : List PivotRow)
    (aggfunc : List ℚ → ℚ) (u p : Nat) :
    (p ∈ pivot_columns rows ↔ ∃ r ∈ rows, r.part = p)
  ∧ ((¬ ∃ r ∈ rows, r.user_id = u ∧ r.part = p) →
      derive_pivot_data_cell rows aggfunc u p = 0) := by
  constructor
  · rw [pivot_columns, mem_dropDuplicates]
    simp [List.mem_map, eq_comm]
  · intro hno
    have hfil : rows.filter (fun r => decide (r.user_id = u ∧ r.part = p))
        = [] := by
      rw [List.filter_eq_nil_iff]
      intro r hr
      simp only [decide_eq_true_eq]
      intro hcon
      exact hno ⟨r, hr, hcon⟩
    simp only [derive_pivot_data_cell, pivot_table_cell, hfil]
    rfl

/-- Claim C3 witness (amended part): a subject with no event in the
observed category gets a filled `0` cell from `_derive_pivot_data`. -/
theorem c3_pivot_zero_fill_amended_witness :
    derive_pivot_data_cell [ PivotRow.mk 1 1 5 ] aggCount 2 1 = 0 :=
  (c3_pivot_zero_fill_amended [ PivotRow.mk 1 1 5 ] aggCount 2 1).2 (by decide)

/-- Claim C3 counterexample: in the line-203 pivot of `derive_user_info`
(used when assembling the final feature table), subject 2 — present in
the table — has a `none` (NaN) cell, not `0`, for observed category 2. -/
theorem c3_pivot_zero_fill_counterexample :
    2 ∈ pivot_users [ PivotRow.mk 1 1 5, PivotRow.mk 1 2 7, PivotRow.mk 2 1 3 ]
  ∧ 2 ∈ pivot_columns [ PivotRow.mk 1 1 5, PivotRow.mk 1 2 7, PivotRow.mk 2 1 3 ]
  ∧ derive_user_info_pivot_cell
      [ PivotRow.mk 1 1 5, PivotRow.mk 1 2 7, PivotRow.mk 2 1 3 ] 2 2 = none
  ∧ derive_user_info_pivot_cell
      [ PivotRow.mk 1 1 5, PivotRow.mk 1 2 7, PivotRow.mk 2 1 3 ] 2 2
      ≠ some 0 := by
  exact ⟨by decide, by decide, by decide, by decide⟩

/-- Claim C7 counterexample: `derive_random_cutoff_data` and
`derive_err_related_data` both hand back a *changed* caller frame — the
first gains a `question_count` column, the second gains a `date` column
and a rewritten `time` — so the stages are not pure in their inputs. -/
theorem c7_stage_purity_counterexample :
    derive_random_cutoff_data_mutation
        (PLogFrame.mk [ "row_id", "user_id", "task_container_id" ] [])
      ≠ PLogFrame.mk [ "row_id", "user_id", "task_container_id" ] []
  ∧ derive_err_related_data_mutation
        (ErrFrame.mk [ "user_id", "time", "errtype", "errcode" ]
          [ ErrRow.mk 1 20201101120000 3 7 none ])
      ≠ ErrFrame.mk [ "user_id", "time", "errtype", "errcode" ]
          [ ErrRow.mk 1 20201101120000 3 7 none ] :=
  ⟨by decide, by decide⟩

/-- Claim C7 (amended): the two stages do mutate the caller's frame, but
only by column addition / re-representation: `derive_random_cutoff_data`
leaves the rows intact and appends `question_count`;
`derive_err_related_data` appends `date`, re-represents `time`, and
keeps every row's identifying values and the row count. -/
theorem c7_stage_purity_amended (f : PLogFrame) (g : ErrFrame)
    (h1 : "question_count" ∉ f.cols) (h2 : "date" ∉ g.cols) :
    (derive_random_cutoff_data_mutation f).rows = f.rows
  ∧ (derive_random_cutoff_data_mutation f).cols
      = f.cols ++ [ "question_count" ]
  ∧ (derive_err_related_data_mutation g).cols
      = assignCol g.cols "time" ++ [ "date" ]
  ∧ (derive_err_related_data_mutation g).rows.length = g.rows.length
  ∧ (derive_err_related_data_mutation g).rows.map
      (fun r => (r.user_id, r.errtype, r.errcode))
      = g.rows.map (fun r => (r.user_id, r.errtype, r.errcode)) := by
  have hdate : "date" ∉ assignCol g.cols "time" := by
    intro hd
    rw [assignCol] at hd
    by_cases ht : "time" ∈ g.cols
    · rw [if_pos ht] at hd
      exact h2 hd
    · rw [if_neg ht] at hd
      rcases List.mem_append.mp hd with hd1 | hd1
      · exact h2 hd1
      · simp at hd1
  refine ⟨rfl, ?_, ?_, ?_, ?_⟩
  · rw [derive_random_cutoff_data_mutation]
    simp [assignCol, h1]
  · show assignCol (assignCol g.cols "time") "date"
      = assignCol g.cols "time" ++ [ "date" ]
    rw [assignCol, if_neg hdate]
  · rw [derive_err_related_data_mutation]
    simp
  · rw [derive_err_related_data_mutation]
    simp [List.map_map]

/-- Claim C7 witness (amended part): the concrete frame gains exactly
the `question_count` column. -/
theorem c7_stage_purity_amended_witness :
    (derive_random_cutoff_data_mutation
        (PLogFrame.mk [ "row_id", "user_id" ] [])).cols
      = [ "row_id", "user_id" ] ++ [ "question_count" ] :=
  (c7_stage_purity_amended (PLogFrame.mk [ "row_id", "user_id" ] [])
    (ErrFrame.mk [ "user_id", "time" ] []) (by decide) (by decide)).2.1

/-- Claim C10: `refine_log_data` computes the same partitions as the
variant with the dead line-19 `shift_question_info` call deleted, and
its output column set never contains the shifted
`question_elapsed_time` / `question_had_explanation` columns when the
input lacks them (the merge at line 22 starts again from the raw
input). -/
theorem c10_shift_discarded :
    (∀ (gen : Nat → Nat) (lb : Nat) (df : List LogRow),
        refine_log_data gen lb df = refine_log_data_no_shift gen lb df)
  ∧ (∀ cols : List String, "question_elapsed_time" ∉ cols →
        "question_elapsed_time" ∉ refine_log_data_columns cols)
  ∧ (∀ cols : List String, "question_had_explanation" ∉ cols →
        "question_had_explanation" ∉ refine_log_data_columns cols) := by
  have hmem : ∀ (s : String) (cols : List String), s ∉ cols →
      s ≠ "question_count" → s ≠ "cutoff_position" →
      s ∉ refine_log_data_columns cols := by
    intro s cols h hs1 hs2 hmem
    rw [refine_log_data_columns, assignCol] at hmem
    by_cases hqc : "question_count" ∈ cols
    · rw [if_pos hqc] at hmem
      rcases List.mem_append.mp hmem with h1 | h1
      · exact h h1
      · simp at h1
        exact hs2 h1
    · rw [if_neg hqc] at hmem
      rcases List.mem_append.mp hmem with h1 | h1
      · rcases List.mem_append.mp h1 with h2 | h2
        · exact h h2
        · simp at h2
          exact hs1 h2
      · simp at h1
        exact hs2 h1
  exact ⟨fun gen lb df => rfl,
    fun cols h => hmem _ cols h (by decide) (by decide),
    fun cols h => hmem _ cols h (by decide) (by decide)⟩

/-- Claim C10 witness: on a concrete seed and input the two variants
agree, and a standard input column list yields no shifted column. -/
theorem c10_shift_discarded_witness :
    refine_log_data (fun _ => 0) 10 [ LogRow.mk 0 1 1 0 none none ]
      = refine_log_data_no_shift (fun _ => 0) 10 [ LogRow.mk 0 1 1 0 none none ]
  ∧ "question_elapsed_time" ∉
      refine_log_data_columns [ "user_id", "task_container_id" ] :=
  ⟨c10_shift_discarded.1 (fun _ => 0) 10 [ LogRow.mk 0 1 1 0 none none ],
   c10_shift_discarded.2.1 [ "user_id", "task_container_id" ] (by decide)⟩

/-- Claim C4: for a group of question events with pairwise-distinct
`row_order` keys, the `last` aggregation (here `recently_correct_answer`,
the `.last()` of the answered column after sorting by `row_id`) returns
the value of the row holding the maximum `row_id`, and permuting the
group's rows (keeping their `row_order` values) does not change the
computed value. -/
theorem c4_last_aggregation_determinism (g : List QRow) (r : QRow) (v : ℚ)
    (hnd : (g.map QRow.row_id).Nodup) (hr : r ∈ g)
    (hmax : ∀ x ∈ g, x.row_id ≤ r.row_id)
    (hv : r.answered_correctly = some v) :
    recently_correct_answer g = some v
  ∧ (∀ g' : List QRow, g'.Perm g →
      recently_correct_answer g' = recently_correct_answer g) := by
  constructor
  · rw [recently_correct_answer, agg_last]
    have hlast : (sortByRowId g).getLast? = some r := by
      apply sorted_rowIdLe_getLast
      · exact List.sorted_insertionSort rowIdLe g
      · exact ((List.perm_insertionSort rowIdLe g).map QRow.row_id).nodup_iff.mpr hnd
      · exact (List.perm_insertionSort rowIdLe g).mem_iff.mpr hr
      · intro x hx
        exact hmax x ((List.perm_insertionSort rowIdLe g).subset hx)
    rw [getLast?_filterMap hlast (by rw [hv]; rfl), hv]
  · intro g' hperm
    rw [recently_correct_answer, recently_correct_answer, agg_last, agg_last,
      sortByRowId_perm_eq hperm hnd]

/-- Claim C4 witness: a two-event group; the `row_id = 2` event carries
the value, and the reversed group computes the same value. -/
theorem c4_last_aggregation_determinism_witness :
    recently_correct_answer
      [ QRow.mk 1 10 (some 0) none none [], QRow.mk 2 20 (some 1) none none [] ]
      = some 1
  ∧ recently_correct_answer
      [ QRow.mk 2 20 (some 1) none none [], QRow.mk 1 10 (some 0) none none [] ]
      = recently_correct_answer
      [ QRow.mk 1 10 (some 0) none none [], QRow.mk 2 20 (some 1) none none [] ] :=
  ⟨(c4_last_aggregation_determinism
      [ QRow.mk 1 10 (some 0) none none [], QRow.mk 2 20 (some 1) none none [] ]
      (QRow.mk 2 20 (some 1) none none []) 1
      (by decide) (by decide) (by decide) (by decide)).1,
   (c4_last_aggregation_determinism
      [ QRow.mk 1 10 (some 0) none none [], QRow.mk 2 20 (some 1) none none [] ]
      (QRow.mk 2 20 (some 1) none none []) 1
      (by decide) (by decide) (by decide) (by decide)).2
      [ QRow.mk 2 20 (some 1) none none [], QRow.mk 1 10 (some 0) none none [] ]
      (List.Perm.swap (QRow.mk 1 10 (some 0) none none [])
        (QRow.mk 2 20 (some 1) none none []) [])⟩

/-- The first input of the claim C5 counterexample: subject 1 owns two
eligible events, subject 2 owns three. -/
def c5dfA : List LogRow :=
  [ LogRow.mk 0 1 1 0 none none, LogRow.mk 1 1 2 0 none none,
    LogRow.mk 2 2 5 0 none none, LogRow.mk 3 2 6 0 none none,
    LogRow.mk 4 2 7 0 none none ]

/-- The second input of the claim C5 counterexample: subject 2's events
are unchanged, but subject 1 now owns a single eligible event (below the
minimum), so it consumes no random draw. -/
def c5dfB : List LogRow :=
  [ LogRow.mk 0 1 1 0 none none,
    LogRow.mk 2 2 5 0 none none, LogRow.mk 3 2 6 0 none none,
    LogRow.mk 4 2 7 0 none none ]

/-- Claim C5 counterexample: with the same seed stream and the same
`lower_bound = 2`, subject 2 has the same ordered eligible-position list
in both inputs, yet its drawn cutoff differs (7 vs 6), because subject
1's draw in the first input advances the shared random stream.  The
per-subject draw is therefore not a pure function of the seed and the
subject's own ordered position list. -/
theorem c5_cutoff_reproducibility_counterexample :
    userTasks c5dfA 2 = userTasks c5dfB 2
  ∧ (derive_random_cutoff_data (fun s => s) 2 c5dfA).lookup 2 = some 7
  ∧ (derive_random_cutoff_data (fun s => s) 2 c5dfB).lookup 2 = some 6 :=
  ⟨by decide, by decide, by decide⟩

/-- Claim C5 (amended): with the same seed stream and `lower_bound`, the
cutoff table is a pure function of the *multiset* of input rows — two
runs on the same input agree, and reordering the input rows never
changes any subject's cutoff, because the rows are sorted by
`(user_id, task_container_id)` and the group keys are walked in sorted
order.  Each draw, however, depends on the random-stream position
reached after the earlier subjects' draws, not on the subject's own
position list alone. -/
theorem c5_cutoff_reproducibility_amended (gen : Nat → Nat) (lb : Nat)
    {df₁ df₂ : List LogRow} (h : df₁.Perm df₂) :
    derive_random_cutoff_data gen lb df₁ = derive_random_cutoff_data gen lb df₂ := by
  rw [derive_random_cutoff_data, derive_random_cutoff_data, usersOf_perm_eq h]
  congr 1
  apply List.map_congr_left
  intro u _
  rw [userTasks_perm_eq h u]

/-- Claim C5 witness (amended part): swapping the two rows of a concrete
input leaves the cutoff table unchanged. -/
theorem c5_cutoff_reproducibility_amended_witness :
    derive_random_cutoff_data (fun s => s) 2
        [ LogRow.mk 0 1 1 0 none none, LogRow.mk 1 1 2 0 none none ]
      = derive_random_cutoff_data (fun s => s) 2
        [ LogRow.mk 1 1 2 0 none none, LogRow.mk 0 1 1 0 none none ] :=
  c5_cutoff_reproducibility_amended (fun s => s) 2
    (List.Perm.swap (LogRow.mk 1 1 2 0 none none)
      (LogRow.mk 0 1 1 0 none none) [])

end Spec2Proof
